import Mathlib

/-!
Verification of the gsheets-tennis repository against its specification.

The Python sources are shallowly embedded: JSON values become the `Json`
inductive, Python exceptions become the `PyErr` error type threaded through
`Except`, and each source function becomes a Lean definition of the same name.
File and network effects are made explicit: HTTP responses are passed in as
parameters and file writes are returned as data.
-/

/-- Python exception kinds raised by the code under study. -/
inductive PyErr where
  | keyError
  | typeError
  | valueError
  | attributeError
  | indexError
deriving DecidableEq

/-- JSON values as produced by json.loads: numbers in this code are integers. -/
inductive Json where
  | null
  | bool (b : Bool)
  | num (n : Int)
  | str (s : String)
  | arr (xs : List Json)
  | obj (kvs : List (String × Json))

/-- Dictionary lookup; json.loads keeps the LAST occurrence of a duplicated key. -/
def assocLast (kvs : List (String × Json)) (k : String) : Option Json :=
  match kvs with
  | [] => none
  | (k0, v) :: rest =>
    match assocLast rest k with
    | some w => some w
    | none => if k0 = k then some v else none

/-- Python d[k]: KeyError on a missing key, TypeError when d is not a dict
(None, numbers and booleans are not subscriptable; list indices and string
indices must be integers). -/
def Json.getItem : Json → String → Except PyErr Json
  | .obj kvs, k =>
    match assocLast kvs k with
    | some v => .ok v
    | none => .error .keyError
  | _, _ => .error .typeError

/-- Python d.get(k): only dicts have the attribute; a missing key gives None. -/
def Json.dictGet : Json → String → Except PyErr Json
  | .obj kvs, k => .ok ((assocLast kvs k).getD .null)
  | _, _ => .error .attributeError

/-- Python s[i] for a non-negative integer index. -/
def Json.getIdx : Json → Nat → Except PyErr Json
  | .arr xs, i =>
    match xs.get? i with
    | some v => .ok v
    | none => .error .indexError
  | .str s, i =>
    match s.data.get? i with
    | some c => .ok (.str (String.mk [c]))
    | none => .error .indexError
  | .obj _, _ => .error .keyError
  | _, _ => .error .typeError

/-- Python truthiness of a json.loads value. -/
def Json.truthy : Json → Bool
  | .null => false
  | .bool b => b
  | .num n => n != 0
  | .str s => s != ""
  | .arr xs => !xs.isEmpty
  | .obj kvs => !kvs.isEmpty

/-- Python x is None. -/
def Json.isNull : Json → Bool
  | .null => true
  | _ => false

/-- Python j == n for an integer literal n (booleans equal their 0/1 value). -/
def pyEqInt (j : Json) (n : Int) : Bool :=
  match j with
  | .num m => m == n
  | .bool b => (if b then (1 : Int) else 0) == n
  | _ => false

/-- Python j == s for a string literal s. -/
def pyEqStr (j : Json) (s : String) : Bool :=
  match j with
  | .str t => t == s
  | _ => false

/-- Python j in a tuple of integer literals (membership uses ==). -/
def pyMemInt (j : Json) (ns : List Int) : Bool :=
  ns.any (pyEqInt j)

/-- Python a > b between json.loads scalars: numbers and booleans compare
numerically, strings lexicographically; every other pairing (None, sequence
against scalar, dicts: none occurs in score data) raises TypeError. -/
def pyGt (a b : Json) : Except PyErr Bool :=
  match a, b with
  | .num m, .num n => .ok (decide (n < m))
  | .num m, .bool y => .ok (decide ((if y then (1 : Int) else 0) < m))
  | .bool x, .num n => .ok (decide (n < (if x then (1 : Int) else 0)))
  | .bool x, .bool y =>
    .ok (decide ((if y then (1 : Int) else 0) < (if x then (1 : Int) else 0)))
  | .str s, .str t => .ok (decide (t < s))
  | _, _ => .error .typeError

/-- Python int conversion of a numeric json value (bool counts as 0/1);
TypeError otherwise, as raised by datetime and timedelta constructors. -/
def pyNum : Json → Except PyErr Int
  | .num n => .ok n
  | .bool b => .ok (if b then 1 else 0)
  | _ => .error .typeError

/-- Keys of a Python dict in insertion order (duplicates collapsed). -/
def keysInOrder (kvs : List (String × Json)) : List String :=
  kvs.foldl (fun ks kv => if ks.contains kv.1 then ks else ks ++ [kv.1]) []

/-- Python len() on sized values. -/
def pyLen : Json → Except PyErr Nat
  | .arr xs => .ok xs.length
  | .str s => .ok s.length
  | .obj kvs => .ok (keysInOrder kvs).length
  | _ => .error .typeError

-- Enums from src/rapidapi/sofascore/data.py.

/-- Side enum. -/
inductive Side where
  | HOME
  | AWAY
deriving DecidableEq

/-- Status enum. -/
inductive Status where
  | RETIRED
  | ENDED
  | CANCELED
  | COVERAGE_CANCELED
  | WALKOVER
deriving DecidableEq

/-- Category enum, in declaration order. -/
inductive Category where
  | WTA
  | ATP
  | CHALLENGER
  | EXHIBITION
  | ITF_MEN
  | ITF_WOMEN
  | DAVIS_CUP
  | JUNIORS
deriving DecidableEq

/-- Category member values. -/
def Category.value : Category → String
  | .WTA => "wta"
  | .ATP => "atp"
  | .CHALLENGER => "challenger"
  | .EXHIBITION => "exhibition"
  | .ITF_MEN => "itf-men"
  | .ITF_WOMEN => "itf-women"
  | .DAVIS_CUP => "davis-cup"
  | .JUNIORS => "juniors"

/-- Members of Category in declaration order, as iterated by the enum. -/
def Category.members : List Category :=
  [.WTA, .ATP, .CHALLENGER, .EXHIBITION, .ITF_MEN, .ITF_WOMEN, .DAVIS_CUP, .JUNIORS]

/-- next((cat for cat in Category if cat.value == slug), None). -/
def categoryFromSlug (slug : Json) : Option Category :=
  Category.members.find? (fun c => pyEqStr slug c.value)

/-- Gender enum. -/
inductive Gender where
  | FEMALE
  | MALE
deriving DecidableEq

/-- Ground enum, in declaration order. -/
inductive Ground where
  | CLAY
  | GRASS
  | HARDCOURT_OUTDOOR
  | HARDCOURT_INDOOR
  | SYNTHETIC_GRASS
deriving DecidableEq

/-- Ground member values. -/
def Ground.value : Ground → String
  | .CLAY => "Clay"
  | .GRASS => "Grass"
  | .HARDCOURT_OUTDOOR => "Hardcourt outdoor"
  | .HARDCOURT_INDOOR => "Hardcourt indoor"
  | .SYNTHETIC_GRASS => "Synthetic grass"

/-- Members of Ground in declaration order. -/
def Ground.members : List Ground :=
  [.CLAY, .GRASS, .HARDCOURT_OUTDOOR, .HARDCOURT_INDOOR, .SYNTHETIC_GRASS]

-- SetScore and Score from src/rapidapi/sofascore/data.py.

/-- SetScore dataclass; fields hold the json values handed to the constructor
(Json.null standing for Python None). -/
structure SetScore where
  home_score : Json
  away_score : Json
  home_tiebreak : Json
  away_tiebreak : Json

/-- SetScore construction including the checks of SetScore.post_init. -/
def mkSetScore (hs aw htb atb : Json) : Except PyErr SetScore :=
  if hs.isNull || aw.isNull then
    if !htb.isNull || !atb.isNull then .error .valueError
    else .ok ⟨hs, aw, htb, atb⟩
  else if (!htb.isNull && !pyMemInt hs [6, 7]) || (!atb.isNull && !pyMemInt aw [6, 7]) then
    .error .valueError
  else .ok ⟨hs, aw, htb, atb⟩

/-- SetScore.winner property. -/
def SetScore.winner (s : SetScore) : Except PyErr (Option Side) :=
  match pyGt s.home_score s.away_score with
  | .error e => .error e
  | .ok true => .ok (some .HOME)
  | .ok false =>
    match pyGt s.away_score s.home_score with
    | .error e => .error e
    | .ok true => .ok (some .AWAY)
    | .ok false => .ok none

/-- SetScore.loser property: a match on the winner property. -/
def SetScore.loser (s : SetScore) : Except PyErr (Option Side) :=
  match s.winner with
  | .error e => .error e
  | .ok (some .AWAY) => .ok (some .HOME)
  | .ok (some .HOME) => .ok (some .AWAY)
  | .ok none => .ok none

/-- Score dataclass; set1 is mandatory, set2..set5 default to None. -/
structure Score where
  set1 : SetScore
  set2 : Option SetScore
  set3 : Option SetScore
  set4 : Option SetScore
  set5 : Option SetScore

/-- Score.scores property: the non-None set scores in order. -/
def Score.scores (sc : Score) : List SetScore :=
  [some sc.set1, sc.set2, sc.set3, sc.set4, sc.set5].filterMap id

/-- The winner of each set in order; the first exception propagates, as in the
list comprehensions of Score.winner. -/
def winnersOf : List SetScore → Except PyErr (List (Option Side))
  | [] => .ok []
  | s :: rest =>
    match s.winner with
    | .error e => .error e
    | .ok w =>
      match winnersOf rest with
      | .error e => .error e
      | .ok ws => .ok (w :: ws)

/-- Score.winner property: compares the number of sets won by each side. -/
def Score.winner (sc : Score) : Except PyErr (Option Side) :=
  match winnersOf sc.scores with
  | .error e => .error e
  | .ok ws =>
    let home_wins := ws.filter (fun w => decide (w = some Side.HOME))
    let away_wins := ws.filter (fun w => decide (w = some Side.AWAY))
    if home_wins.length > away_wins.length then .ok (some .HOME)
    else if away_wins.length > home_wins.length then .ok (some .AWAY)
    else .ok none

/-- Score.loser property: a match on the winner property. -/
def Score.loser (sc : Score) : Except PyErr (Option Side) :=
  match sc.winner with
  | .error e => .error e
  | .ok (some .AWAY) => .ok (some .HOME)
  | .ok (some .HOME) => .ok (some .AWAY)
  | .ok none => .ok none

-- Endpoint hierarchy from src/utils.py. HTTP is made explicit: the parsed
-- response body is a parameter and the performed request and file writes are
-- returned as data in an HttpResult.

/-- Python "sep".join(parts). -/
def strJoin (sep : String) : List String → String
  | [] => ""
  | [x] => x
  | x :: xs => x ++ sep ++ strJoin sep xs

/-- Python s[:-k] (for k = 0 Python yields the empty string). -/
def pySliceToNeg (s : String) (k : Nat) : String :=
  if k = 0 then "" else String.mk (s.data.take (s.data.length - k))

/-- The file writes performed for a given dump destination: exactly one write
of the parsed data when a destination is given, none otherwise. -/
def dumpOf (dumpdest : Option String) (data : Json) : List (String × Json) :=
  match dumpdest with
  | none => []
  | some p => [(p, data)]

/-- Observable outcome of one retrieve call: the requested URL, the query
parameters passed to requests.request, the value returned, and the file
writes performed. -/
structure HttpResult where
  url : String
  queryParams : List (String × String)
  data : Json
  dumps : List (String × Json)

/-- The same result with its file writes erased, for comparing return values
across different dump destinations. -/
def stripDumps (r : HttpResult) : HttpResult :=
  { r with dumps := [] }

/-- utils.endpoint_retrieve: a GET of endpoint_url with paramsmap, an optional
dump of the parsed response, and the parsed response as return value. -/
def endpoint_retrieve (endpoint_url : String) (paramsmap : List (String × String))
    (response : Json) (dumpdest : Option String) : HttpResult :=
  { url := endpoint_url, queryParams := paramsmap, data := response,
    dumps := dumpOf dumpdest response }

/-- ApiEndpoint instance state: the HOST class attribute together with the
fields set by ApiEndpoint.init. -/
structure ApiEndpoint where
  host : String
  endpoint : String
  params : List String
  optparams : List String
  folder : Option String

/-- ApiEndpoint.url property: PREFIX + HOST + folder part + endpoint, with the
folder part present only when the folder is truthy (set and non-empty). -/
def ApiEndpoint.url (e : ApiEndpoint) : String :=
  match e.folder with
  | some f =>
    if f ≠ "" then "https://" ++ e.host ++ "/" ++ f ++ "/" ++ e.endpoint
    else "https://" ++ e.host ++ "/" ++ e.endpoint
  | none => "https://" ++ e.host ++ "/" ++ e.endpoint

/-- ApiEndpoint.validate_paramvalues: ValueError unless the numbers match. -/
def ApiEndpoint.validate_paramvalues (e : ApiEndpoint) (paramvalues : List String) : Bool :=
  e.params.length == paramvalues.length

/-- ApiEndpoint.validate_optparamvalues: every keyword must be a declared
optional parameter. -/
def ApiEndpoint.validate_optparamvalues (e : ApiEndpoint)
    (optparamvalues : List (String × String)) : Bool :=
  optparamvalues.all (fun kv => e.optparams.contains kv.1)

/-- Python dict.update on insertion-ordered mappings: existing keys keep their
position and take the new value, new keys are appended in order. -/
def pyDictUpdate (base upd : List (String × String)) : List (String × String) :=
  base.map (fun kv =>
    match upd.find? (fun uv => uv.1 == kv.1) with
    | some uv => (kv.1, uv.2)
    | none => kv)
  ++ upd.filter (fun uv => !(base.any (fun kv => kv.1 == uv.1)))

/-- UrlParamsEndpoint state: ApiEndpoint plus the optparams_in_url flag. -/
structure UrlParamsEndpoint extends ApiEndpoint where
  optparams_in_url : Bool

/-- UrlParamsEndpoint.retrieve: validates, appends parameter values (and, when
optparams_in_url, the optional values) to the URL, issues the GET, optionally
dumps the parsed response, and returns it. -/
def UrlParamsEndpoint.retrieve (e : UrlParamsEndpoint) (paramvalues : List String)
    (optparamvalues : List (String × String)) (response : Json)
    (dumpdest : Option String) : Except PyErr HttpResult :=
  if !e.toApiEndpoint.validate_paramvalues paramvalues then .error .valueError
  else if !e.toApiEndpoint.validate_optparamvalues optparamvalues then .error .valueError
  else
    let url := e.toApiEndpoint.url
    let url := if !paramvalues.isEmpty then url ++ "/" ++ strJoin "/" paramvalues else url
    let url :=
      if !optparamvalues.isEmpty && e.optparams_in_url then
        url ++ "/" ++ strJoin "/" (optparamvalues.map (fun kv => kv.2))
      else url
    .ok { url := url,
          queryParams := if e.optparams_in_url then [] else optparamvalues,
          data := response,
          dumps := dumpOf dumpdest response }

/-- RequestParamsEndpoint.retrieve: validates, builds the params map from the
positional values updated with the optional ones, issues the GET at the bare
URL, optionally dumps the parsed response, and returns it. -/
def RequestParamsEndpoint.retrieve (e : ApiEndpoint) (paramvalues : List String)
    (optparamvalues : List (String × String)) (response : Json)
    (dumpdest : Option String) : Except PyErr HttpResult :=
  if !e.validate_paramvalues paramvalues then .error .valueError
  else if !e.validate_optparamvalues optparamvalues then .error .valueError
  else
    .ok { url := e.url,
          queryParams := pyDictUpdate (e.params.zip paramvalues) optparamvalues,
          data := response,
          dumps := dumpOf dumpdest response }

/-- MainParamEndpoint state: UrlParamsEndpoint plus the main parameter. -/
structure MainParamEndpoint extends UrlParamsEndpoint where
  mainparam : String

/-- MainParamEndpoint.validate_paramvalues override: the main parameter value
is counted as obligatory. -/
def MainParamEndpoint.validate_paramvalues (e : MainParamEndpoint)
    (paramvalues : List String) : Bool :=
  ([e.mainparam] ++ e.params).length == paramvalues.length

/-- MainParamEndpoint.retrieve: validates, splits off the main value, cuts the
endpoint name off the URL, re-appends main value and endpoint name, then the
remaining values as in UrlParamsEndpoint.retrieve. -/
def MainParamEndpoint.retrieve (e : MainParamEndpoint) (paramvalues : List String)
    (optparamvalues : List (String × String)) (response : Json)
    (dumpdest : Option String) : Except PyErr HttpResult :=
  if !e.validate_paramvalues paramvalues then .error .valueError
  else if !e.toApiEndpoint.validate_optparamvalues optparamvalues then .error .valueError
  else
    match paramvalues with
    | [] => .error .valueError
    | mainvalue :: rest =>
      let url := pySliceToNeg e.toApiEndpoint.url (e.endpoint.length + 1)
      let url := url ++ "/" ++ mainvalue ++ "/" ++ e.endpoint
      let url := if !rest.isEmpty then url ++ "/" ++ strJoin "/" rest else url
      let url :=
        if !optparamvalues.isEmpty && e.optparams_in_url then
          url ++ "/" ++ strJoin "/" (optparamvalues.map (fun kv => kv.2))
        else url
      .ok { url := url,
            queryParams := if e.optparams_in_url then [] else optparamvalues,
            data := response,
            dumps := dumpOf dumpdest response }

/-- utils.get_apikey, with the parsed content of api_creds.json passed in for
the file read: looks the provider up with dict.get and raises ValueError on a
falsy result. -/
def get_apikey (creds : Json) (provider : String) : Except PyErr Json :=
  match creds.dictGet provider with
  | .error e => .error e
  | .ok keydata => if keydata.truthy then .ok keydata else .error .valueError

-- Match parsing from src/rapidapi/sofascore/data.py. Exceptions abort the
-- constructor, so each stage is sequenced with explicit error propagation.

/-- Tournament dataclass; untyped json payload fields are kept as json. -/
structure Tournament where
  name : Json
  altname : Json
  category : Category
  popularity : Json
  ssid : Json

/-- Contender dataclass. -/
structure Contender where
  name : Json
  popularity : Json
  ss_slug : Json
  ssid : Json
  is_winner : Bool
  side : Side
  gender : Option Gender
  ranking : Json

/-- Time object: the start timestamp and the per-set durations in seconds. -/
structure Time where
  timestamp : Int
  set1 : Option Int
  set2 : Option Int
  set3 : Option Int
  set4 : Option Int
  set5 : Option Int

/-- Match object fields set by Match.init. -/
structure Match where
  status : Status
  ssid : Json
  tournament : Tournament
  round : Option Json
  first_to_serve : Option Side
  score : Score
  winner : Side
  home_contenders : Contender × Option Contender
  away_contenders : Contender × Option Contender
  time : Time
  ground : Option Ground

/-- Match.get_status: only the descriptions Ended and Retired are accepted. -/
def get_status (d : Json) : Except PyErr Status :=
  match d.getItem "status" with
  | .error e => .error e
  | .ok st =>
    match st.getItem "description" with
    | .error e => .error e
    | .ok desc =>
      if pyEqStr desc "Ended" then .ok .ENDED
      else if pyEqStr desc "Retired" then .ok .RETIRED
      else .error .valueError

/-- Match.get_tournament: field lookups, then the category slug must match a
Category member or ValueError is raised. -/
def get_tournament (d : Json) : Except PyErr Tournament :=
  match d.getItem "tournament" with
  | .error e => .error e
  | .ok tour =>
    match tour.getItem "name" with
    | .error e => .error e
    | .ok name =>
      match tour.getItem "uniqueTournament" with
      | .error e => .error e
      | .ok ut =>
        match ut.getItem "name" with
        | .error e => .error e
        | .ok altname =>
          match tour.getItem "category" with
          | .error e => .error e
          | .ok catObj =>
            match catObj.getItem "slug" with
            | .error e => .error e
            | .ok slug =>
              match categoryFromSlug slug with
              | none => .error .valueError
              | some category =>
                match ut.getItem "userCount" with
                | .error e => .error e
                | .ok popularity =>
                  match catObj.getItem "id" with
                  | .error e => .error e
                  | .ok id0 => .ok ⟨name, altname, category, popularity, id0⟩

/-- The round field: roundInfo name when roundInfo is truthy, None otherwise. -/
def get_round (d : Json) : Except PyErr (Option Json) :=
  match d.dictGet "roundInfo" with
  | .error e => .error e
  | .ok ri =>
    if ri.truthy then
      match ri.getItem "name" with
      | .error e => .error e
      | .ok n => .ok (some n)
    else .ok none

/-- Match.get_first_to_serve: 1 is home, 2 is away, anything else None. -/
def get_first_to_serve (d : Json) : Except PyErr (Option Side) :=
  match d.dictGet "firstToServe" with
  | .error e => .error e
  | .ok v =>
    if pyEqInt v 1 then .ok (some .HOME)
    else if pyEqInt v 2 then .ok (some .AWAY)
    else .ok none

/-- getscores helper of Match.get_score: the period1..period5 entries (with a
TieBreak suffix for tiebreaks), each None when missing. -/
def getscores (j : Json) (tiebreaks : Bool) : Except PyErr (List Json) :=
  let key := fun (i : Nat) => "period" ++ toString i ++ (if tiebreaks then "TieBreak" else "")
  match j with
  | .obj kvs =>
    .ok ([1, 2, 3, 4, 5].map (fun i => (assocLast kvs (key i)).getD .null))
  | _ => .error .attributeError

/-- zip of the four score lists. -/
def zip4 : List Json → List Json → List Json → List Json →
    List (Json × Json × Json × Json)
  | a :: as0, b :: bs, c :: cs, d :: ds => (a, b, c, d) :: zip4 as0 bs cs ds
  | _, _, _, _ => []

/-- SetScore construction for each zipped quadruple, in order; the first
ValueError from SetScore.post_init propagates. -/
def mkSetScores : List (Json × Json × Json × Json) → Except PyErr (List SetScore)
  | [] => .ok []
  | (hs, aw, htb, atb) :: rest =>
    match mkSetScore hs aw htb atb with
    | .error e => .error e
    | .ok s =>
      match mkSetScores rest with
      | .error e => .error e
      | .ok l => .ok (s :: l)

/-- Score construction from the filtered set scores: Score requires between
one and five positional arguments. -/
def mkScore : List SetScore → Except PyErr Score
  | [a] => .ok ⟨a, none, none, none, none⟩
  | [a, b] => .ok ⟨a, some b, none, none, none⟩
  | [a, b, c] => .ok ⟨a, some b, some c, none, none⟩
  | [a, b, c, d] => .ok ⟨a, some b, some c, some d, none⟩
  | [a, b, c, d, e] => .ok ⟨a, some b, some c, some d, some e⟩
  | _ => .error .typeError

/-- Match.get_score: builds the per-set scores from homeScore and awayScore,
keeps those whose main scores are both non-None, and packs them in a Score. -/
def get_score (d : Json) : Except PyErr Score :=
  match d.getItem "homeScore" with
  | .error e => .error e
  | .ok hso =>
    match getscores hso false with
    | .error e => .error e
    | .ok home_scores =>
      match getscores hso true with
      | .error e => .error e
      | .ok home_tiebreaks =>
        match d.getItem "awayScore" with
        | .error e => .error e
        | .ok awo =>
          match getscores awo false with
          | .error e => .error e
          | .ok away_scores =>
            match getscores awo true with
            | .error e => .error e
            | .ok away_tiebreaks =>
              match mkSetScores (zip4 home_scores away_scores home_tiebreaks away_tiebreaks) with
              | .error e => .error e
              | .ok set_scores =>
                mkScore (set_scores.filter
                  (fun ss => !ss.home_score.isNull && !ss.away_score.isNull))

/-- Match.get_winner: winnerCode 1 is home, 2 is away, anything else raises
ValueError. -/
def get_winner (d : Json) : Except PyErr Side :=
  match d.getItem "winnerCode" with
  | .error e => .error e
  | .ok w =>
    if pyEqInt w 1 then .ok .HOME
    else if pyEqInt w 2 then .ok .AWAY
    else .error .valueError

/-- getcontender helper of Match.get_contenders. -/
def getcontender (winner : Side) (home : Bool) (dc : Json) : Except PyErr Contender :=
  match dc.getItem "name" with
  | .error e => .error e
  | .ok name =>
    match dc.dictGet "gender" with
    | .error e => .error e
    | .ok gdata =>
      match (if !gdata.truthy then Except.ok (none : Option Gender)
             else if pyEqStr gdata "M" then .ok (some .MALE)
             else if pyEqStr gdata "F" then .ok (some .FEMALE)
             else .error .valueError) with
      | .error e => .error e
      | .ok gender =>
        match dc.getItem "userCount" with
        | .error e => .error e
        | .ok popularity =>
          match dc.getItem "slug" with
          | .error e => .error e
          | .ok ss_slug =>
            match dc.getItem "id" with
            | .error e => .error e
            | .ok ssid =>
              match dc.dictGet "ranking" with
              | .error e => .error e
              | .ok ranking =>
                let is_winner := if home then decide (winner = Side.HOME)
                  else decide (winner = Side.AWAY)
                let side := if home then Side.HOME else Side.AWAY
                .ok ⟨name, popularity, ss_slug, ssid, is_winner, side, gender, ranking⟩

/-- Match.get_contenders: a doubles team is split in its two truthy subTeams
(which must number exactly two), a singles player stands alone. -/
def get_contenders (d : Json) (winner : Side) (home : Bool) :
    Except PyErr (Contender × Option Contender) :=
  match d.getItem (if home then "homeTeam" else "awayTeam") with
  | .error e => .error e
  | .ok data =>
    match data.getItem "subTeams" with
    | .error e => .error e
    | .ok st =>
      if st.truthy then
        match pyLen st with
        | .error e => .error e
        | .ok n =>
          if n ≠ 2 then .error .valueError
          else
            match st.getIdx 0 with
            | .error e => .error e
            | .ok st0 =>
              match getcontender winner home st0 with
              | .error e => .error e
              | .ok c0 =>
                match st.getIdx 1 with
                | .error e => .error e
                | .ok st1 =>
                  match getcontender winner home st1 with
                  | .error e => .error e
                  | .ok c1 => .ok (c0, some c1)
      else
        match getcontender winner home data with
        | .error e => .error e
        | .ok c => .ok (c, none)

/-- One optional set duration of Time.init: None by default, otherwise a
timedelta of the given seconds when truthy. -/
def timeSlot : Option Json → Except PyErr (Option Int)
  | none => .ok none
  | some j =>
    if j.truthy then
      match pyNum j with
      | .error e => .error e
      | .ok n => .ok (some n)
    else .ok none

/-- Time construction: at most five positional set times, the timestamp must
be numeric. -/
def mkTime (ts : Json) (times : List Json) : Except PyErr Time :=
  if times.length > 5 then .error .typeError
  else
    match pyNum ts with
    | .error e => .error e
    | .ok t =>
      match timeSlot (times.get? 0) with
      | .error e => .error e
      | .ok s1 =>
        match timeSlot (times.get? 1) with
        | .error e => .error e
        | .ok s2 =>
          match timeSlot (times.get? 2) with
          | .error e => .error e
          | .ok s3 =>
            match timeSlot (times.get? 3) with
            | .error e => .error e
            | .ok s4 =>
              match timeSlot (times.get? 4) with
              | .error e => .error e
              | .ok s5 => .ok ⟨t, s1, s2, s3, s4, s5⟩

/-- Match.get_time: period durations from the time entry, truthy ones kept,
then Time built from startTimestamp and those durations. -/
def get_time (d : Json) : Except PyErr Time :=
  match d.getItem "time" with
  | .error e => .error e
  | .ok tObj =>
    match getscores tObj false with
    | .error e => .error e
    | .ok raw =>
      let times := raw.filter Json.truthy
      match d.getItem "startTimestamp" with
      | .error e => .error e
      | .ok ts => mkTime ts times

/-- The ground field: the first Ground member matching a truthy groundType. -/
def get_ground (d : Json) : Except PyErr (Option Ground) :=
  match d.dictGet "groundType" with
  | .error e => .error e
  | .ok g =>
    if g.truthy then .ok (Ground.members.find? (fun gr => pyEqStr g gr.value))
    else .ok none

/-- Match.init: the stages in source order; any exception aborts construction
and no Match object is produced. -/
def matchOfJson (d : Json) : Except PyErr Match :=
  match get_status d with
  | .error e => .error e
  | .ok status =>
    match d.getItem "customId" with
    | .error e => .error e
    | .ok ssid =>
      match get_tournament d with
      | .error e => .error e
      | .ok tournament =>
        match get_round d with
        | .error e => .error e
        | .ok round =>
          match get_first_to_serve d with
          | .error e => .error e
          | .ok fts =>
            match get_score d with
            | .error e => .error e
            | .ok score =>
              match get_winner d with
              | .error e => .error e
              | .ok winner =>
                match get_contenders d winner true with
                | .error e => .error e
                | .ok hc =>
                  match get_contenders d winner false with
                  | .error e => .error e
                  | .ok ac =>
                    match get_time d with
                    | .error e => .error e
                    | .ok time =>
                      match get_ground d with
                      | .error e => .error e
                      | .ok ground =>
                        .ok ⟨status, ssid, tournament, round, fts, score, winner,
                             hc, ac, time, ground⟩

-- src/rapidapi/sofascore/api.py.

/-- The team ids of TEAMID_MAP (men then women, insertion order); a player
team id is valid exactly when it occurs here. -/
def teamidValues : List Int :=
  [257091, 158896, 205971, 108709, 112805, 111783, 153698, 56577, 257864, 179258,
   222299, 228272, 42492, 161400, 42289, 71250, 211014, 294815, 45903, 222185,
   19329, 321865, 217160]

/-- pull_matches: rejects unknown team ids with ValueError, then requests the
get-last-matches page and returns its events entry. The HTTP exchange of
endpoint.retrieve is abstracted by api, the parsed response per pageIndex. -/
def pull_matches (api : Int → Json) (player_teamid : Int) (page_index : Int) :
    Except PyErr Json :=
  if !teamidValues.contains player_teamid then .error .valueError
  else (api page_index).getItem "events"

/-- Python list += value: a list extends, a string contributes its characters,
a dict its keys; other values raise TypeError. -/
def pyExtend (acc : List Json) (j : Json) : Except PyErr (List Json) :=
  match j with
  | .arr xs => .ok (acc ++ xs)
  | .str s => .ok (acc ++ s.data.map (fun c => Json.str (String.mk [c])))
  | .obj kvs => .ok (acc ++ (keysInOrder kvs).map Json.str)
  | _ => .error .typeError

/-- The while-True loop of pull_all_matches, with explicit fuel for the
unbounded iteration; ok none means the fuel ran out before the loop ended. -/
def pullAllLoop (api : Int → Json) (teamid : Int) :
    Nat → Int → List Json → Except PyErr (Option (List Json))
  | 0, _, _ => .ok none
  | fuel + 1, page, acc =>
    match pull_matches api teamid page with
    | .error e => .error e
    | .ok result =>
      match result.dictGet "events" with
      | .error e => .error e
      | .ok new_batch =>
        if !new_batch.truthy then .ok (some acc)
        else
          match pyExtend acc new_batch with
          | .error e => .error e
          | .ok acc2 =>
            match result.getItem "hasNextPage" with
            | .error e => .error e
            | .ok hnp =>
              if !hnp.truthy then .ok (some acc2)
              else pullAllLoop api teamid fuel (page + 1) acc2

/-- pull_all_matches: rejects unknown team ids with ValueError, then runs the
manual pagination loop from page 0 with an empty accumulator. -/
def pull_all_matches (api : Int → Json) (teamid : Int) (fuel : Nat) :
    Except PyErr (Option (List Json)) :=
  if !teamidValues.contains teamid then .error .valueError
  else pullAllLoop api teamid fuel 0 []

/-- The Status enum members and their values, for attribute access by name. -/
def statusMembers : List (String × String) :=
  [("RETIRED", "Retired"), ("ENDED", "Ended"), ("CANCELED", "Canceled"),
   ("COVERAGE_CANCELED", "Coverage canceled"), ("WALKOVER", "Walkover")]

/-- Python Status.NAME.value: AttributeError when the enum has no such member. -/
def statusValue (memberName : String) : Except PyErr String :=
  match statusMembers.lookup memberName with
  | some v => .ok v
  | none => .error .attributeError

/-- prune_canceled: keeps entries whose status description is in none of the
tuple of canceled values; for each entry the description is looked up first,
then the tuple is built, whose third element is the missing Status.WARNING. -/
def prune_canceled : List Json → Except PyErr (List Json)
  | [] => .ok []
  | d :: rest =>
    match d.getItem "status" with
    | .error e => .error e
    | .ok st =>
      match st.getItem "description" with
      | .error e => .error e
      | .ok desc =>
        match statusValue "CANCELED" with
        | .error e => .error e
        | .ok v1 =>
          match statusValue "COVERAGE_CANCELED" with
          | .error e => .error e
          | .ok v2 =>
            match statusValue "WARNING" with
            | .error e => .error e
            | .ok v3 =>
              match prune_canceled rest with
              | .error e => .error e
              | .ok tail =>
                .ok (if !(pyEqStr desc v1 || pyEqStr desc v2 || pyEqStr desc v3)
                     then d :: tail else tail)

/-- The positional parameters of the get_apikey signature in src/utils.py. -/
def get_apikey_params : List String := ["provider"]

/-- The positional arguments of the get_apikey call in the SofaScoreEndpoint
class body in src/rapidapi/sofascore/api.py. -/
def sofascore_keymap_args : List String := ["API_PROVIDER", "APINAME"]

/-- Binding positional arguments to a plain Python signature (no defaults, no
varargs): a count mismatch raises TypeError. -/
def bindPositional (sig args : List String) : Except PyErr (List (String × String)) :=
  if sig.length = args.length then .ok (sig.zip args) else .error .typeError

/-- Evaluating the SofaScoreEndpoint class body: the KEYMAP line calls
get_apikey with two positional arguments. -/
def sofascore_endpoint_classbody : Except PyErr (List (String × String)) :=
  bindPositional get_apikey_params sofascore_keymap_args

-- src/tennis_abstract/data.py.

/-- Hand enum. -/
inductive Hand where
  | RIGHT
  | LEFT
  | UNKNOWN
deriving DecidableEq

/-- Hand member values. -/
def Hand.value : Hand → String
  | .RIGHT => "R"
  | .LEFT => "L"
  | .UNKNOWN => "U"

/-- Members of Hand in declaration order. -/
def Hand.members : List Hand := [.RIGHT, .LEFT, .UNKNOWN]

/-- next((h for h in Hand if h.value == hand), None). -/
def handLookup (code : String) : Option Hand :=
  Hand.members.find? (fun h => h.value == code)

/-- Player dataclass; the birthdate is kept abstract (an integer encoding of
the datetime produced by the date-parsing block). -/
structure Player where
  id : Int
  firstname : String
  lastname : String
  hand : Hand
  birthdate : Option Int
  country_code : String

/-- One loop iteration of getplayers, building a Player from a csv row:
unpacking needs exactly six fields, int conversion and the dateutil/strptime
birthdate block are abstracted by the parse_id and parse_bd oracles. -/
def mkPlayerRow (parse_id : String → Except PyErr Int)
    (parse_bd : String → Except PyErr (Option Int)) (row : List String) :
    Except PyErr Player :=
  match row with
  | [id0, fn, ln, hand, bd, cc] =>
    let hand2 := match handLookup hand with
      | some h => h
      | none => Hand.UNKNOWN
    match parse_bd bd with
    | .error e => .error e
    | .ok bd2 =>
      match parse_id id0 with
      | .error e => .error e
      | .ok n => .ok ⟨n, fn, ln, hand2, bd2, cc⟩
  | _ => .error .valueError

/-- getplayers over the parsed csv rows: each row becomes a Player, which is
yielded when there is no filter or the filter accepts it. -/
def getplayers (rows : List (List String)) (filt : Option (Player → Bool))
    (parse_id : String → Except PyErr Int)
    (parse_bd : String → Except PyErr (Option Int)) : Except PyErr (List Player) :=
  match rows with
  | [] => .ok []
  | row :: rest =>
    match mkPlayerRow parse_id parse_bd row with
    | .error e => .error e
    | .ok p =>
      let keep := match filt with
        | none => true
        | some f => f p
      match getplayers rest filt parse_id parse_bd with
      | .error e => .error e
      | .ok tail => .ok (if keep then p :: tail else tail)

/-- All players of the rows in order, regardless of any filter. -/
def playersOf (rows : List (List String))
    (parse_id : String → Except PyErr Int)
    (parse_bd : String → Except PyErr (Option Int)) : Except PyErr (List Player) :=
  match rows with
  | [] => .ok []
  | row :: rest =>
    match mkPlayerRow parse_id parse_bd row with
    | .error e => .error e
    | .ok p =>
      match playersOf rest parse_id parse_bd with
      | .error e => .error e
      | .ok tail => .ok (p :: tail)

/-- The URL tail "/p1/.../pn" described by the specification: one slash before
each parameter value, nothing for no values. -/
def slashJoin : List String → String
  | [] => ""
  | p :: ps => "/" ++ p ++ slashJoin ps

-- Theorems.

theorem str_append_assoc (a b c : String) : a ++ b ++ c = a ++ (b ++ c) :=
  String.ext (by simp [String.data_append])

theorem pySlice_append (base e : String) :
    pySliceToNeg (base ++ "/" ++ e) (e.length + 1) = base := by
  have hd : (base ++ "/" ++ e).data = base.data ++ ('/' :: e.data) := by
    rw [String.data_append, String.data_append]
    simp
  have hlen : (base ++ "/" ++ e).data.length - (e.length + 1) = base.data.length := by
    rw [hd, List.length_append]
    simp only [List.length_cons]
    have he : e.length = e.data.length := rfl
    omega
  unfold pySliceToNeg
  rw [if_neg (Nat.succ_ne_zero _)]
  refine String.ext ?_
  show (base ++ "/" ++ e).data.take ((base ++ "/" ++ e).data.length - (e.length + 1))
      = base.data
  rw [hlen, hd]
  exact List.take_left base.data _

theorem slash_strJoin (p : String) (t : List String) :
    "/" ++ strJoin "/" (p :: t) = slashJoin (p :: t) := by
  induction t generalizing p with
  | nil => refine String.ext ?_; simp [strJoin, slashJoin, String.data_append]
  | cons q t ih =>
    show "/" ++ (p ++ "/" ++ strJoin "/" (q :: t)) = "/" ++ p ++ slashJoin (q :: t)
    rw [← ih q]
    refine String.ext ?_
    simp [String.data_append]

theorem appendJoin (u : String) (ps : List String) :
    (if !ps.isEmpty then u ++ "/" ++ strJoin "/" ps else u) = u ++ slashJoin ps := by
  cases ps with
  | nil => refine String.ext ?_; simp [slashJoin, String.data_append]
  | cons p t =>
    rw [if_pos (by simp)]
    rw [str_append_assoc u "/" (strJoin "/" (p :: t)), slash_strJoin p t]

/-- C9: winner and loser are duals for both SetScore and Score: the loser is
home exactly when the winner is away, away exactly when the winner is home,
and None exactly when the winner is None. -/
theorem c9_winner_loser_dual :
    (∀ s : SetScore,
      (s.loser = .ok (some Side.HOME) ↔ s.winner = .ok (some Side.AWAY)) ∧
      (s.loser = .ok (some Side.AWAY) ↔ s.winner = .ok (some Side.HOME)) ∧
      (s.loser = .ok none ↔ s.winner = .ok none)) ∧
    (∀ sc : Score,
      (sc.loser = .ok (some Side.HOME) ↔ sc.winner = .ok (some Side.AWAY)) ∧
      (sc.loser = .ok (some Side.AWAY) ↔ sc.winner = .ok (some Side.HOME)) ∧
      (sc.loser = .ok none ↔ sc.winner = .ok none)) := by
  constructor
  · intro s
    cases hw : s.winner with
    | error e => simp [SetScore.loser, hw]
    | ok w =>
      cases w with
      | none => simp [SetScore.loser, hw]
      | some side => cases side <;> simp [SetScore.loser, hw]
  · intro sc
    cases hw : sc.winner with
    | error e => simp [Score.loser, hw]
    | ok w =>
      cases w with
      | none => simp [Score.loser, hw]
      | some side => cases side <;> simp [Score.loser, hw]

/-- C5: a successfully constructed SetScore with both main scores non-None has
tiebreaks only on scores of 6 or 7, and construction raises ValueError when a
main score is None while some tiebreak is not. -/
theorem c5_setscore_invariant :
    ∀ (hs aw htb atb : Json) (s : SetScore),
      (mkSetScore hs aw htb atb = .ok s →
        s.home_score.isNull = false → s.away_score.isNull = false →
        (s.home_tiebreak.isNull = false → pyMemInt s.home_score [6, 7] = true) ∧
        (s.away_tiebreak.isNull = false → pyMemInt s.away_score [6, 7] = true)) ∧
      ((hs.isNull = true ∨ aw.isNull = true) →
        (htb.isNull = false ∨ atb.isNull = false) →
        mkSetScore hs aw htb atb = .error .valueError) := by
  intro hs aw htb atb s
  constructor
  · intro hok h1 h2
    unfold mkSetScore at hok
    split at hok
    · split at hok
      · simp at hok
      · injection hok with h
        obtain rfl : s = ⟨hs, aw, htb, atb⟩ := h.symm
        dsimp only at h1 h2 ⊢
        simp_all
    · next hmain =>
      split at hok
      · simp at hok
      · next htie =>
        injection hok with h
        obtain rfl : s = ⟨hs, aw, htb, atb⟩ := h.symm
        dsimp only at h1 h2 ⊢
        simp only [Bool.or_eq_true, Bool.and_eq_true, Bool.not_eq_true', not_or,
          not_and] at htie
        constructor
        · intro hht
          rcases Bool.eq_false_or_eq_true (pyMemInt hs [6, 7]) with hb | hb
          · exact hb
          · exact absurd hb (htie.1 hht)
        · intro hat
          rcases Bool.eq_false_or_eq_true (pyMemInt aw [6, 7]) with hb | hb
          · exact hb
          · exact absurd hb (htie.2 hat)
  · intro hnull hnt
    have hA : (hs.isNull || aw.isNull) = true := by rcases hnull with h | h <;> simp [h]
    have hB : (!htb.isNull || !atb.isNull) = true := by rcases hnt with h | h <;> simp [h]
    simp [mkSetScore, hA, hB]

/-- C5 witness: a 7-6 set with a home tiebreak constructs and satisfies the
invariant; a None main score with a tiebreak raises ValueError. -/
theorem c5_witness :
    pyMemInt (Json.num 7) [6, 7] = true ∧
    mkSetScore Json.null (Json.num 6) (Json.num 8) Json.null = .error .valueError := by
  constructor
  · exact ((c5_setscore_invariant (Json.num 7) (Json.num 6) (Json.num 8) Json.null
      ⟨Json.num 7, Json.num 6, Json.num 8, Json.null⟩).1 rfl rfl rfl).1 rfl
  · exact (c5_setscore_invariant Json.null (Json.num 6) (Json.num 8) Json.null
      ⟨Json.null, Json.null, Json.null, Json.null⟩).2 (Or.inl rfl) (Or.inl rfl)

/-- C8: get_apikey takes one positional parameter but the SofaScoreEndpoint
class body passes two, so evaluating the class definition raises TypeError
and the module import fails before any endpoint is constructed. -/
theorem c8_sofascore_classbody_typeerror :
    sofascore_endpoint_classbody = .error .typeError := rfl

/-- C3: the pagination of pull_all_matches is broken: pull_matches already
returns the events list of the page, so the loop body calls .get on a list,
which raises AttributeError on the very first well-formed page instead of
accumulating batches (here the page JSON has a one-element events list and
hasNextPage false, for the valid team id 228272). -/
theorem c3_pull_all_matches_attrerror :
    pull_matches
      (fun _ => Json.obj [("events", Json.arr [Json.obj [("id", Json.num 1)]]),
                          ("hasNextPage", Json.bool false)]) 228272 0
      = .ok (Json.arr [Json.obj [("id", Json.num 1)]]) ∧
    pull_all_matches
      (fun _ => Json.obj [("events", Json.arr [Json.obj [("id", Json.num 1)]]),
                          ("hasNextPage", Json.bool false)]) 228272 3
      = .error .attributeError :=
  ⟨rfl, rfl⟩

/-- C10 counterexample: on the non-empty input whose first entry has no status
key, prune_canceled raises KeyError, not AttributeError as the claim states. -/
theorem c10_counterexample :
    prune_canceled [Json.obj []] = .error .keyError ∧
    prune_canceled [Json.obj []] ≠ .error .attributeError := by
  refine ⟨rfl, ?_⟩
  have hk : prune_canceled [Json.obj []] = Except.error PyErr.keyError := rfl
  rw [hk]
  simp

/-- C10 amended: prune_canceled returns the empty list on the empty list; on
every non-empty input it raises an exception, which is AttributeError (from
the missing Status.WARNING member) whenever the status description lookup of
the first entry succeeds; hence it never returns a non-empty list. -/
theorem c10_prune_canceled_never_prunes :
    prune_canceled [] = .ok [] ∧
    (∀ (d : Json) (rest : List Json) (st desc : Json),
      d.getItem "status" = .ok st → st.getItem "description" = .ok desc →
      prune_canceled (d :: rest) = .error .attributeError) ∧
    (∀ (d : Json) (rest : List Json), ∃ e, prune_canceled (d :: rest) = .error e) ∧
    (∀ (ms : List Json) (l : List Json), prune_canceled ms = .ok l → l = []) := by
  have hattr : ∀ (d : Json) (rest : List Json) (st desc : Json),
      d.getItem "status" = .ok st → st.getItem "description" = .ok desc →
      prune_canceled (d :: rest) = .error .attributeError := by
    intro d rest st desc h1 h2
    simp only [prune_canceled, h1, h2]
    rfl
  have hex : ∀ (d : Json) (rest : List Json), ∃ e,
      prune_canceled (d :: rest) = .error e := by
    intro d rest
    cases h1 : d.getItem "status" with
    | error e => refine ⟨e, ?_⟩; simp only [prune_canceled, h1]
    | ok st =>
      cases h2 : st.getItem "description" with
      | error e => refine ⟨e, ?_⟩; simp only [prune_canceled, h1, h2]
      | ok desc => exact ⟨.attributeError, hattr d rest st desc h1 h2⟩
  refine ⟨rfl, hattr, hex, ?_⟩
  intro ms l h
  cases ms with
  | nil =>
    have h2 : ([] : List Json) = l := by injection h
    exact h2.symm
  | cons d rest =>
    obtain ⟨e, he⟩ := hex d rest
    rw [he] at h
    exact absurd h (by simp)

/-- C10 witness: a one-entry list with a well-formed status raises the
AttributeError of the amended statement. -/
theorem c10_witness :
    prune_canceled [Json.obj [("status", Json.obj [("description", Json.str "Ended")])]]
      = .error .attributeError :=
  c10_prune_canceled_never_prunes.2.1 _ []
    (Json.obj [("description", Json.str "Ended")]) (Json.str "Ended") rfl rfl

/-- C6: over a parsed api_creds.json object, get_apikey raises ValueError
exactly when the provider key is absent or bound to an empty (falsy) value,
and otherwise returns the entry stored under the provider key. -/
theorem c6_get_apikey :
    ∀ (kvs : List (String × Json)) (provider : String),
      (get_apikey (Json.obj kvs) provider = .error .valueError ↔
        assocLast kvs provider = none ∨
          ∃ v, assocLast kvs provider = some v ∧ v.truthy = false) ∧
      (∀ v, assocLast kvs provider = some v → v.truthy = true →
        get_apikey (Json.obj kvs) provider = .ok v) := by
  intro kvs provider
  constructor
  · cases h : assocLast kvs provider with
    | none => simp [get_apikey, Json.dictGet, h, Json.truthy]
    | some v =>
      by_cases ht : v.truthy
      · simp [get_apikey, Json.dictGet, h, ht]
      · simp [get_apikey, Json.dictGet, h, ht]
  · intro v h ht
    simp [get_apikey, Json.dictGet, h, ht]

/-- C6 witness: a one-provider credentials object returns its entry. -/
theorem c6_witness :
    get_apikey (Json.obj [("rapidapi", Json.obj [("x-rapidapi-key", Json.str "k")])])
      "rapidapi" = .ok (Json.obj [("x-rapidapi-key", Json.str "k")]) :=
  (c6_get_apikey [("rapidapi", Json.obj [("x-rapidapi-key", Json.str "k")])]
    "rapidapi").2 _ rfl rfl

/-- C2: the url property is the https scheme, host, optional folder segment
and endpoint name; and MainParamEndpoint.retrieve requests the URL with the
main parameter value inserted between the folder and the endpoint name,
followed by one slash-prefixed segment per remaining parameter value. -/
theorem c2_endpoint_urls :
    (∀ (e : ApiEndpoint) (f : String), e.folder = some f → f ≠ "" →
      e.url = "https://" ++ e.host ++ "/" ++ f ++ "/" ++ e.endpoint) ∧
    (∀ e : ApiEndpoint, (e.folder = none ∨ e.folder = some "") →
      e.url = "https://" ++ e.host ++ "/" ++ e.endpoint) ∧
    (∀ (mp : MainParamEndpoint) (f m : String) (ps : List String)
      (response : Json) (dumpdest : Option String) (r : HttpResult),
      mp.folder = some f → f ≠ "" → ps.length = mp.params.length →
      mp.retrieve (m :: ps) [] response dumpdest = .ok r →
      r.url = "https://" ++ mp.host ++ "/" ++ f ++ "/" ++ m ++ "/" ++ mp.endpoint
        ++ slashJoin ps) := by
  refine ⟨?_, ?_, ?_⟩
  · intro e f hf hne
    simp [ApiEndpoint.url, hf, hne]
  · intro e hf
    rcases hf with hf | hf <;> simp [ApiEndpoint.url, hf]
  · intro mp f m ps response dd r hf hne hlen hok
    have hval : mp.validate_paramvalues (m :: ps) = true := by
      simp [MainParamEndpoint.validate_paramvalues, hlen]
    have hopt : mp.toApiEndpoint.validate_optparamvalues [] = true := rfl
    have hurl : mp.toApiEndpoint.url =
        ("https://" ++ mp.host ++ "/" ++ f) ++ "/" ++ mp.endpoint := by
      show ApiEndpoint.url _ = _
      simp [ApiEndpoint.url, hf, hne]
    simp only [MainParamEndpoint.retrieve, hval, hopt, Bool.not_true, Bool.false_eq_true,
      if_false, List.isEmpty_nil, Bool.not_false, Bool.true_and, Bool.and_eq_true,
      List.isEmpty_eq_true] at hok
    injection hok with h
    subst h
    dsimp only
    rw [hurl, pySlice_append, appendJoin]
    simp

/-- C2 witness: a concrete endpoint with folder f, main value M, endpoint ep
and one parameter value V is requested at https://host/f/M/ep/V. -/
theorem c2_witness :
    ((⟨⟨⟨"h.example", "ep", ["p1"], [], some "fld"⟩, true⟩, "m"⟩ :
        MainParamEndpoint).retrieve ["M", "V"] [] Json.null none
      = .ok ⟨"https://h.example/fld/M/ep/V", [], Json.null, []⟩) ∧
    ("https://" ++ "h.example" ++ "/" ++ "fld" ++ "/" ++ "M" ++ "/" ++ "ep"
        ++ slashJoin ["V"] : String) = "https://h.example/fld/M/ep/V" ∧
    (⟨"h.example", "ep", [], [], some "fld"⟩ : ApiEndpoint).url
      = "https://" ++ "h.example" ++ "/" ++ "fld" ++ "/" ++ "ep" := by
  refine ⟨rfl, ?_, ?_⟩
  · have happ := c2_endpoint_urls.2.2
      ⟨⟨⟨"h.example", "ep", ["p1"], [], some "fld"⟩, true⟩, "m"⟩ "fld" "M" ["V"]
      Json.null none ⟨"https://h.example/fld/M/ep/V", [], Json.null, []⟩
      rfl (by decide) rfl rfl
    exact happ.symm
  · exact c2_endpoint_urls.1 ⟨"h.example", "ep", [], [], some "fld"⟩ "fld" rfl (by decide)

/-- C4: across endpoint_retrieve and the retrieve overrides, the parsed
response is written exactly to a given dump destination and nowhere else, and
the rest of the result (URL, query parameters, returned data) is the same
with and without a dump destination. -/
theorem c4_dump_side_effect_only :
    (∀ (u : String) (pm : List (String × String)) (resp : Json) (dd : Option String),
      (endpoint_retrieve u pm resp dd).dumps = dumpOf dd resp ∧
      stripDumps (endpoint_retrieve u pm resp dd)
        = stripDumps (endpoint_retrieve u pm resp none)) ∧
    (∀ (e : UrlParamsEndpoint) (pv : List String) (opv : List (String × String))
      (resp : Json) (dd : Option String),
      (e.retrieve pv opv resp dd).map stripDumps
        = (e.retrieve pv opv resp none).map stripDumps ∧
      (e.retrieve pv opv resp dd).map HttpResult.dumps
        = (e.retrieve pv opv resp dd).map (fun _ => dumpOf dd resp)) ∧
    (∀ (e : ApiEndpoint) (pv : List String) (opv : List (String × String))
      (resp : Json) (dd : Option String),
      (RequestParamsEndpoint.retrieve e pv opv resp dd).map stripDumps
        = (RequestParamsEndpoint.retrieve e pv opv resp none).map stripDumps ∧
      (RequestParamsEndpoint.retrieve e pv opv resp dd).map HttpResult.dumps
        = (RequestParamsEndpoint.retrieve e pv opv resp dd).map
            (fun _ => dumpOf dd resp)) ∧
    (∀ (e : MainParamEndpoint) (pv : List String) (opv : List (String × String))
      (resp : Json) (dd : Option String),
      (e.retrieve pv opv resp dd).map stripDumps
        = (e.retrieve pv opv resp none).map stripDumps ∧
      (e.retrieve pv opv resp dd).map HttpResult.dumps
        = (e.retrieve pv opv resp dd).map (fun _ => dumpOf dd resp)) ∧
    (∀ resp : Json, dumpOf none resp = []) := by
  refine ⟨?_, ?_, ?_, ?_, ?_⟩
  · intro u pm resp dd
    exact ⟨rfl, rfl⟩
  · intro e pv opv resp dd
    by_cases h1 : (!e.toApiEndpoint.validate_paramvalues pv) = true
    · constructor <;> simp [UrlParamsEndpoint.retrieve, h1, Except.map]
    · by_cases h2 : (!e.toApiEndpoint.validate_optparamvalues opv) = true
      · constructor <;> simp [UrlParamsEndpoint.retrieve, h1, h2, Except.map]
      · constructor <;> simp [UrlParamsEndpoint.retrieve, h1, h2, stripDumps, Except.map]
  · intro e pv opv resp dd
    by_cases h1 : (!e.validate_paramvalues pv) = true
    · constructor <;> simp [RequestParamsEndpoint.retrieve, h1, Except.map]
    · by_cases h2 : (!e.validate_optparamvalues opv) = true
      · constructor <;> simp [RequestParamsEndpoint.retrieve, h1, h2, Except.map]
      · constructor <;> simp [RequestParamsEndpoint.retrieve, h1, h2, stripDumps, Except.map]
  · intro e pv opv resp dd
    by_cases h1 : (!e.validate_paramvalues pv) = true
    · constructor <;> simp [MainParamEndpoint.retrieve, h1, Except.map]
    · by_cases h2 : (!e.toApiEndpoint.validate_optparamvalues opv) = true
      · constructor <;> simp [MainParamEndpoint.retrieve, h1, h2, Except.map]
      · cases pv with
        | nil =>
          constructor <;> simp [MainParamEndpoint.retrieve, h1, h2, Except.map]
        | cons m rest =>
          constructor <;>
            simp [MainParamEndpoint.retrieve, h1, h2, stripDumps, Except.map]
  · intro resp
    rfl

/-- C7: over rows that each build a player, getplayers yields one Player per
row in file row order when no filter is given, exactly the players accepted
by the filter (in the same order) when one is given; and a hand code matching
no Hand member is mapped to Hand.UNKNOWN. -/
theorem c7_getplayers :
    (∀ (rows : List (List String)) (parse_id : String → Except PyErr Int)
      (parse_bd : String → Except PyErr (Option Int)),
      (∀ row ∈ rows, ∃ p, mkPlayerRow parse_id parse_bd row = .ok p) →
      ∃ ps, playersOf rows parse_id parse_bd = .ok ps ∧
        getplayers rows none parse_id parse_bd = .ok ps ∧
        ∀ f, getplayers rows (some f) parse_id parse_bd = .ok (ps.filter f)) ∧
    (∀ (parse_id : String → Except PyErr Int)
      (parse_bd : String → Except PyErr (Option Int))
      (id0 fn ln hcode bd cc : String) (p : Player),
      mkPlayerRow parse_id parse_bd [id0, fn, ln, hcode, bd, cc] = .ok p →
      handLookup hcode = none → p.hand = Hand.UNKNOWN) := by
  constructor
  · intro rows parse_id parse_bd hall
    induction rows with
    | nil => exact ⟨[], rfl, rfl, fun f => rfl⟩
    | cons row rest ih =>
      obtain ⟨p, hp⟩ := hall row (List.mem_cons_self row rest)
      obtain ⟨ps, h1, h2, h3⟩ := ih (fun r hr => hall r (List.mem_cons_of_mem row hr))
      refine ⟨p :: ps, ?_, ?_, ?_⟩
      · simp only [playersOf, hp, h1]
      · simp [getplayers, hp, h2]
      · intro f
        have h4 := h3 f
        simp only [getplayers, hp, h4, List.filter_cons]
  · intro parse_id parse_bd id0 fn ln hcode bd cc p hok hlk
    simp only [mkPlayerRow, hlk] at hok
    cases hbd : parse_bd bd with
    | error e => rw [hbd] at hok; simp at hok
    | ok b =>
      rw [hbd] at hok
      cases hid : parse_id id0 with
      | error e => rw [hid] at hok; simp at hok
      | ok n =>
        rw [hid] at hok
        injection hok with h
        rw [← h]

/-- C7 witness: a single row with the unrecognized hand code X yields exactly
one player, whose hand is UNKNOWN. -/
theorem c7_witness :
    getplayers [["1", "A", "B", "X", "d", "POL"]] none
      (fun _ => .ok 1) (fun _ => .ok none)
      = .ok [⟨1, "A", "B", Hand.UNKNOWN, none, "POL"⟩] ∧
    (⟨1, "A", "B", Hand.UNKNOWN, none, "POL"⟩ : Player).hand = Hand.UNKNOWN := by
  constructor
  · obtain ⟨ps, h1, h2, h3⟩ := c7_getplayers.1 [["1", "A", "B", "X", "d", "POL"]]
      (fun _ => .ok 1) (fun _ => .ok none)
      (by
        intro row hr
        simp only [List.mem_singleton] at hr
        subst hr
        exact ⟨⟨1, "A", "B", Hand.UNKNOWN, none, "POL"⟩, rfl⟩)
    have h0 : playersOf [["1", "A", "B", "X", "d", "POL"]]
        (fun _ => .ok 1) (fun _ => .ok none)
        = .ok [⟨1, "A", "B", Hand.UNKNOWN, none, "POL"⟩] := rfl
    have hps : [(⟨1, "A", "B", Hand.UNKNOWN, none, "POL"⟩ : Player)] = ps :=
      Except.ok.inj (h0.symm.trans h1)
    rw [h2, ← hps]
  · exact c7_getplayers.2 (fun _ => .ok 1) (fun _ => .ok none)
      "1" "A" "B" "X" "d" "POL" _ rfl rfl

/-- C1: Match construction raises ValueError and yields no object whenever
the check in question is reached and fails: a status description that is
neither Ended nor Retired; a tournament category slug matching no Category
member; a winnerCode that is neither 1 nor 2. -/
theorem c1_match_ctor_rejects_malformed :
    (∀ (d st desc : Json),
      d.getItem "status" = .ok st → st.getItem "description" = .ok desc →
      pyEqStr desc "Ended" = false → pyEqStr desc "Retired" = false →
      matchOfJson d = .error .valueError) ∧
    (∀ (d : Json) (s : Status) (cid tour name ut altname catObj slug : Json),
      get_status d = .ok s → d.getItem "customId" = .ok cid →
      d.getItem "tournament" = .ok tour → tour.getItem "name" = .ok name →
      tour.getItem "uniqueTournament" = .ok ut → ut.getItem "name" = .ok altname →
      tour.getItem "category" = .ok catObj → catObj.getItem "slug" = .ok slug →
      categoryFromSlug slug = none →
      matchOfJson d = .error .valueError) ∧
    (∀ (d : Json) (s : Status) (cid : Json) (tour : Tournament) (rnd : Option Json)
      (fts : Option Side) (sc : Score) (w : Json),
      get_status d = .ok s → d.getItem "customId" = .ok cid →
      get_tournament d = .ok tour → get_round d = .ok rnd →
      get_first_to_serve d = .ok fts → get_score d = .ok sc →
      d.getItem "winnerCode" = .ok w →
      pyEqInt w 1 = false → pyEqInt w 2 = false →
      matchOfJson d = .error .valueError) := by
  refine ⟨?_, ?_, ?_⟩
  · intro d st desc h1 h2 h3 h4
    have hs : get_status d = .error .valueError := by
      simp [get_status, h1, h2, h3, h4]
    simp only [matchOfJson, hs]
  · intro d s cid tour name ut altname catObj slug h1 h2 h3 h4 h5 h6 h7 h8 h9
    have ht : get_tournament d = .error .valueError := by
      simp only [get_tournament, h3, h4, h5, h6, h7, h8, h9]
    simp only [matchOfJson, h1, h2, ht]
  · intro d s cid tour rnd fts sc w h1 h2 h3 h4 h5 h6 h7 h8 h9
    have hw : get_winner d = .error .valueError := by
      simp [get_winner, h7, h8, h9]
    simp only [matchOfJson, h1, h2, h3, h4, h5, h6, hw]

/-- C1 witness: a payload that passes every earlier stage but carries
winnerCode 3 is rejected with ValueError; so are a payload with status Live
and one with the unknown category slug nocat. -/
theorem c1_witness :
    matchOfJson (Json.obj
      [("status", Json.obj [("description", Json.str "Ended")]),
       ("customId", Json.str "x"),
       ("tournament", Json.obj
         [("name", Json.str "T"),
          ("uniqueTournament", Json.obj [("name", Json.str "U"),
                                         ("userCount", Json.num 5)]),
          ("category", Json.obj [("slug", Json.str "wta"), ("id", Json.num 7)])]),
       ("homeScore", Json.obj [("period1", Json.num 6)]),
       ("awayScore", Json.obj [("period1", Json.num 4)]),
       ("winnerCode", Json.num 3)]) = .error .valueError ∧
    matchOfJson (Json.obj [("status", Json.obj [("description", Json.str "Live")])])
      = .error .valueError ∧
    matchOfJson (Json.obj
      [("status", Json.obj [("description", Json.str "Ended")]),
       ("customId", Json.str "x"),
       ("tournament", Json.obj
         [("name", Json.str "T"),
          ("uniqueTournament", Json.obj [("name", Json.str "U"),
                                         ("userCount", Json.num 5)]),
          ("category", Json.obj [("slug", Json.str "nocat"),
                                 ("id", Json.num 7)])])]) = .error .valueError := by
  refine ⟨?_, ?_, ?_⟩
  · exact c1_match_ctor_rejects_malformed.2.2 _ Status.ENDED (Json.str "x")
      ⟨Json.str "T", Json.str "U", Category.WTA, Json.num 5, Json.num 7⟩ none none
      ⟨⟨Json.num 6, Json.num 4, Json.null, Json.null⟩, none, none, none, none⟩
      (Json.num 3) rfl rfl rfl rfl rfl rfl rfl rfl rfl
  · exact c1_match_ctor_rejects_malformed.1 _
      (Json.obj [("description", Json.str "Live")]) (Json.str "Live") rfl rfl rfl rfl
  · exact c1_match_ctor_rejects_malformed.2.1 _ Status.ENDED (Json.str "x")
      (Json.obj
        [("name", Json.str "T"),
         ("uniqueTournament", Json.obj [("name", Json.str "U"),
                                        ("userCount", Json.num 5)]),
         ("category", Json.obj [("slug", Json.str "nocat"), ("id", Json.num 7)])])
      (Json.str "T")
      (Json.obj [("name", Json.str "U"), ("userCount", Json.num 5)])
      (Json.str "U")
      (Json.obj [("slug", Json.str "nocat"), ("id", Json.num 7)])
      (Json.str "nocat") rfl rfl rfl rfl rfl rfl rfl rfl rfl
